import Mathlib

/-!
# Verification of the blockchain-runtime security subsystem

Shallow embedding of the security-validation and execution-lifecycle
subsystem of the `blockchain-runtime` crate (files `security.rs`,
`types.rs`, `config.rs`, `constants.rs`, `runtime.rs`), together with
proofs of the testable properties stated in the design document.

Modelling conventions:
* Rust `u32`/`u64` fields are modelled as `Nat` (the claims only compare
  them, no wrapping arithmetic occurs in the embedded code paths);
* Rust `i64` operands are modelled as `Int`, with the signed 64-bit
  range made explicit where `checked_add`/`checked_mul` matter;
* `Result<T, E>` becomes `Except E T`; `Option<T>` becomes `Option T`;
* `HashMap<String, serde_json::Value>` becomes an association list
  `List (String × Json)`, and `serde_json::Value` becomes the inductive
  `Json` below;
* `SystemTime::now(...)` in `create_violation` is a clock read; the
  embedding passes the current unix-seconds value in explicitly as a
  `now : Nat` argument;
* Rust `format!` interpolation becomes string concatenation.
-/

set_option autoImplicit false

namespace BlockchainRuntime

/-- Model of `serde_json::Value` (objects as association lists). -/
inductive Json where
  | null : Json
  | bool : Bool → Json
  | num : Int → Json
  | str : String → Json
  | arr : List Json → Json
  | obj : List (String × Json) → Json

/-- From `types.rs`: `enum SecurityViolationType`. -/
inductive SecurityViolationType where
  | ReentrancyAttack
  | IntegerOverflow
  | AccessControlViolation
  | ResourceLimitExceeded
  | SandboxViolation
  | CallDepthExceeded
  | ExternalCallLimitExceeded
  | GasLimitExceeded
  | MemoryLimitExceeded
deriving Repr, DecidableEq

/-- From `types.rs`: `enum SecuritySeverity`. -/
inductive SecuritySeverity where
  | Low
  | Medium
  | High
  | Critical
deriving Repr, DecidableEq

/-- From `types.rs`: `struct SecurityViolation`. -/
structure SecurityViolation where
  violation_type : SecurityViolationType
  description : String
  severity : SecuritySeverity
  timestamp : Nat
  context : List (String × Json)

/-- From `security.rs`: `struct SecurityConfig`. -/
structure SecurityConfig where
  sandbox_enabled : Bool
  reentrancy_protection : Bool
  overflow_detection : Bool
  access_control_verification : Bool
  max_call_depth : Nat
  max_external_calls : Nat
  gas_limit_enforcement : Bool
  max_gas_limit : Nat
  memory_limit_enforcement : Bool
  max_memory_bytes : Nat
deriving Repr, DecidableEq

/-- From `constants.rs`: `DEFAULT_TIMEOUT_SECONDS`. -/
def DEFAULT_TIMEOUT_SECONDS : Nat := 300

/-- From `constants.rs`: `DEFAULT_MEMORY_LIMIT_MB`. -/
def DEFAULT_MEMORY_LIMIT_MB : Nat := 1024

/-- From `constants.rs`: `DEFAULT_MAX_CALL_DEPTH`. -/
def DEFAULT_MAX_CALL_DEPTH : Nat := 1024

/-- From `constants.rs`: `DEFAULT_MAX_EXTERNAL_CALLS`. -/
def DEFAULT_MAX_EXTERNAL_CALLS : Nat := 100

/-- From `constants.rs`: `DEFAULT_MAX_GAS_LIMIT`. -/
def DEFAULT_MAX_GAS_LIMIT : Nat := 10000000

/-- From `constants.rs`: `DEFAULT_MAX_MEMORY_BYTES` (100 MB). -/
def DEFAULT_MAX_MEMORY_BYTES : Nat := 100 * 1024 * 1024

/-- Rust `u64::MAX`. -/
def U64_MAX : Nat := 2 ^ 64 - 1

namespace SecurityConfig

/-- From `security.rs`: `impl Default for SecurityConfig`. -/
def default : SecurityConfig :=
  { sandbox_enabled := true
    reentrancy_protection := true
    overflow_detection := true
    access_control_verification := true
    max_call_depth := DEFAULT_MAX_CALL_DEPTH
    max_external_calls := DEFAULT_MAX_EXTERNAL_CALLS
    gas_limit_enforcement := true
    max_gas_limit := DEFAULT_MAX_GAS_LIMIT
    memory_limit_enforcement := true
    max_memory_bytes := DEFAULT_MAX_MEMORY_BYTES }

/-- From `security.rs`: `SecurityConfig::permissive`. -/
def permissive : SecurityConfig :=
  { sandbox_enabled := false
    reentrancy_protection := false
    overflow_detection := false
    access_control_verification := false
    max_call_depth := DEFAULT_MAX_CALL_DEPTH
    max_external_calls := DEFAULT_MAX_EXTERNAL_CALLS
    gas_limit_enforcement := false
    max_gas_limit := U64_MAX
    memory_limit_enforcement := false
    max_memory_bytes := U64_MAX }

/-- From `security.rs`: `SecurityConfig::strict`. -/
def strict : SecurityConfig :=
  { sandbox_enabled := true
    reentrancy_protection := true
    overflow_detection := true
    access_control_verification := true
    max_call_depth := 100
    max_external_calls := 10
    gas_limit_enforcement := true
    max_gas_limit := 1000000
    memory_limit_enforcement := true
    max_memory_bytes := 10 * 1024 * 1024 }

end SecurityConfig

/-- The signed 64-bit minimum, `i64::MIN`. -/
def I64_MIN : Int := -(2 ^ 63)

/-- The signed 64-bit maximum, `i64::MAX`. -/
def I64_MAX : Int := 2 ^ 63 - 1

/-- Whether an integer lies in the signed 64-bit range. -/
def inI64Range (x : Int) : Prop := I64_MIN ≤ x ∧ x ≤ I64_MAX

instance (x : Int) : Decidable (inI64Range x) := by
  unfold inI64Range; infer_instance

/-- Rust `i64::checked_add`: `none` exactly when the sum leaves the
signed 64-bit range. -/
def checked_add (a b : Int) : Option Int :=
  if inI64Range (a + b) then some (a + b) else none

/-- Rust `i64::checked_mul`: `none` exactly when the product leaves the
signed 64-bit range. -/
def checked_mul (a b : Int) : Option Int :=
  if inI64Range (a * b) then some (a * b) else none

/-! ## `security.rs`: `SecurityValidator`

The Rust `SecurityValidator` is a struct holding one `SecurityConfig`;
its methods read only that config.  The embedding passes the config as
the first argument of each method.  `create_violation` reads the wall
clock for the timestamp; the embedding takes the clock value `now`. -/

namespace SecurityValidator

/-- From `security.rs`: `SecurityValidator::create_violation` (the clock read
is the explicit `now` argument). -/
def create_violation (violation_type : SecurityViolationType)
    (description : String) (severity : SecuritySeverity) (now : Nat) :
    SecurityViolation :=
  { violation_type := violation_type
    description := description
    severity := severity
    timestamp := now
    context := [] }

/-- From `security.rs`: `SecurityValidator::validate_call_depth`. -/
def validate_call_depth (config : SecurityConfig) (now : Nat)
    (call_depth : Nat) : Except SecurityViolation Unit :=
  if call_depth > config.max_call_depth then
    .error (create_violation .CallDepthExceeded
      ("Call depth " ++ toString call_depth ++ " exceeds maximum " ++
        toString config.max_call_depth)
      .High now)
  else
    .ok ()

/-- From `security.rs`: `SecurityValidator::validate_external_calls`. -/
def validate_external_calls (config : SecurityConfig) (now : Nat)
    (call_count : Nat) : Except SecurityViolation Unit :=
  if call_count > config.max_external_calls then
    .error (create_violation .ExternalCallLimitExceeded
      ("External call count " ++ toString call_count ++
        " exceeds maximum " ++ toString config.max_external_calls)
      .High now)
  else
    .ok ()

/-- From `security.rs`: `SecurityValidator::validate_gas_usage`. -/
def validate_gas_usage (config : SecurityConfig) (now : Nat)
    (gas_used : Nat) : Except SecurityViolation Unit :=
  if config.gas_limit_enforcement ∧ gas_used > config.max_gas_limit then
    .error (create_violation .GasLimitExceeded
      ("Gas usage " ++ toString gas_used ++ " exceeds maximum " ++
        toString config.max_gas_limit)
      .High now)
  else
    .ok ()

/-- From `security.rs`: `SecurityValidator::validate_memory_usage`. -/
def validate_memory_usage (config : SecurityConfig) (now : Nat)
    (memory_used : Nat) : Except SecurityViolation Unit :=
  if config.memory_limit_enforcement ∧ memory_used > config.max_memory_bytes then
    .error (create_violation .MemoryLimitExceeded
      ("Memory usage " ++ toString memory_used ++ " exceeds maximum " ++
        toString config.max_memory_bytes)
      .High now)
  else
    .ok ()

/-- From `security.rs`: `SecurityValidator::check_reentrancy`.  The Rust code
counts the occurrences of `function_name` in `call_stack` with
`iter().filter(..).count()`. -/
def check_reentrancy (config : SecurityConfig) (now : Nat)
    (function_name : String) (caller : String) (call_stack : List String) :
    Except SecurityViolation Bool :=
  if !config.reentrancy_protection then
    .ok false
  else
    let recursive_calls := (call_stack.filter (fun f => f = function_name)).length
    if recursive_calls > 1 then
      .error (create_violation .ReentrancyAttack
        ("Potential reentrancy attack in function " ++ function_name ++
          " called by " ++ caller)
        .Critical now)
    else
      .ok false

/-- From `security.rs`: `SecurityValidator::detect_overflow`.  Matches on the
operation name; for the addition and multiplication aliases it checks
`operands[0]`/`operands[1]` only when at least two operands are given. -/
def detect_overflow (config : SecurityConfig) (now : Nat)
    (operation : String) (operands : List Int) :
    Except SecurityViolation Bool :=
  if !config.overflow_detection then
    .ok false
  else if operation = "add" ∨ operation = "+" then
    match operands with
    | a :: b :: _ =>
      match checked_add a b with
      | none =>
        .error (create_violation .IntegerOverflow
          ("Integer overflow detected in addition: " ++ toString a ++
            " + " ++ toString b)
          .High now)
      | some _ => .ok false
    | _ => .ok false
  else if operation = "multiply" ∨ operation = "*" then
    match operands with
    | a :: b :: _ =>
      match checked_mul a b with
      | none =>
        .error (create_violation .IntegerOverflow
          ("Integer overflow detected in multiplication: " ++ toString a ++
            " * " ++ toString b)
          .High now)
      | some _ => .ok false
    | _ => .ok false
  else
    .ok false

/-- From `security.rs`: `SecurityValidator::verify_access_control`. -/
def verify_access_control (config : SecurityConfig) (now : Nat)
    (function_name : String) (caller : String)
    (required_role : Option String) : Except SecurityViolation Bool :=
  if !config.access_control_verification then
    .ok true
  else
    match required_role with
    | some role =>
      if role = "admin" ∧ ¬ caller.endsWith ("admin") then
        .error (create_violation .AccessControlViolation
          ("Access denied: " ++ caller ++ " does not have " ++ role ++
            " role for function " ++ function_name)
          .Medium now)
      else
        .ok true
    | none => .ok true

end SecurityValidator

/-- From `security.rs`: `struct SecurityValidator` (holds one config; the
check methods above take that config as their first argument). -/
structure SecurityValidatorS where
  config : SecurityConfig

/-- From `security.rs`: `SecurityValidator::new`. -/
def SecurityValidatorS.new (config : SecurityConfig) : SecurityValidatorS :=
  { config := config }

/-- From `security.rs`: `struct SecurityContext`. -/
structure SecurityContext where
  validator : SecurityValidatorS
  violations : List SecurityViolation

namespace SecurityContext

/-- From `security.rs`: `SecurityContext::new`. -/
def new (config : SecurityConfig) : SecurityContext :=
  { validator := SecurityValidatorS.new config, violations := [] }

/-- From `security.rs`: `SecurityContext::add_violation` (`Vec::push`). -/
def add_violation (ctx : SecurityContext) (violation : SecurityViolation) :
    SecurityContext :=
  { ctx with violations := ctx.violations ++ [violation] }

/-- From `security.rs`: `SecurityContext::clear_violations`. -/
def clear_violations (ctx : SecurityContext) : SecurityContext :=
  { ctx with violations := [] }

/-- From `security.rs`: `SecurityContext::has_critical_violations`. -/
def has_critical_violations (ctx : SecurityContext) : Bool :=
  ctx.violations.any (fun v =>
    match v.severity with
    | .Critical => true
    | _ => false)

/-- The body of the counting for-loop in
`SecurityContext::violation_count_by_severity`: bump the counter of the
violation's severity.  Counter order is `(critical, high, medium, low)`
as in the source. -/
def countStep (counts : Nat × Nat × Nat × Nat) (v : SecurityViolation) :
    Nat × Nat × Nat × Nat :=
  match counts, v.severity with
  | (c, h, m, l), .Critical => (c + 1, h, m, l)
  | (c, h, m, l), .High => (c, h + 1, m, l)
  | (c, h, m, l), .Medium => (c, h, m + 1, l)
  | (c, h, m, l), .Low => (c, h, m, l + 1)

/-- From `security.rs`: `SecurityContext::violation_count_by_severity` — the
for-loop over four mutable counters, as a fold of `countStep` starting
from all-zero counters. -/
def violation_count_by_severity (ctx : SecurityContext) :
    Nat × Nat × Nat × Nat :=
  ctx.violations.foldl countStep (0, 0, 0, 0)

end SecurityContext

/-! ## `types.rs`: core data types -/

/-- From `types.rs`: `enum NetworkMode`. -/
inductive NetworkMode where
  | Local
  | Testnet
  | MainnetFork
deriving Repr, DecidableEq

/-- From `types.rs`: `enum RuntimeType`. -/
inductive RuntimeType where
  | Docker
  | LocalProcess
  | CloudInstance
  | InMemory
deriving Repr, DecidableEq

/-- From `types.rs`: `enum EnvironmentState`. -/
inductive EnvironmentState where
  | Creating
  | Ready
  | Running
  | Stopped
  | Error
deriving Repr, DecidableEq

/-- From `types.rs`: `enum StateChangeType`. -/
inductive StateChangeType where
  | Created
  | Updated
  | Deleted
deriving Repr, DecidableEq

/-- From `types.rs`: `struct RuntimeCapabilities`. -/
structure RuntimeCapabilities where
  supports_contract_deployment : Bool
  supports_function_calls : Bool
  supports_state_inspection : Bool
  supports_event_monitoring : Bool
  supports_gas_estimation : Bool
  supports_time_travel : Bool
  max_execution_time_seconds : Nat
deriving Repr, DecidableEq

/-- From `types.rs`: `impl Default for RuntimeCapabilities`. -/
def RuntimeCapabilities.default : RuntimeCapabilities :=
  { supports_contract_deployment := true
    supports_function_calls := true
    supports_state_inspection := true
    supports_event_monitoring := true
    supports_gas_estimation := false
    supports_time_travel := false
    max_execution_time_seconds := 300 }

/-- From `types.rs`: `struct RuntimeEnvironment`. -/
structure RuntimeEnvironment where
  environment_id : String
  blockchain_id : String
  runtime_type : RuntimeType
  endpoint_url : String
  state : EnvironmentState
  metadata : List (String × Json)

/-- From `types.rs`: `struct StateChange`. -/
structure StateChange where
  key : String
  old_value : Option Json
  new_value : Json
  change_type : StateChangeType

/-- From `types.rs`: `struct RuntimeEvent`. -/
structure RuntimeEvent where
  event_id : String
  event_type : String
  timestamp : Nat
  data : List (String × Json)

/-- From `types.rs`: `struct AccessControlCheck`. -/
structure AccessControlCheck where
  function_name : String
  caller : String
  required_role : Option String
  has_permission : Bool
  check_timestamp : Nat

/-- From `types.rs`: `struct SecureExecutionContext`. -/
structure SecureExecutionContext where
  call_depth : Nat
  external_call_count : Nat
  gas_used : Nat
  memory_used : Nat
  call_stack : List String
  access_control_checks : List AccessControlCheck
  security_violations : List SecurityViolation

/-- From `types.rs`: `impl Default for SecureExecutionContext`. -/
def SecureExecutionContext.default : SecureExecutionContext :=
  { call_depth := 0
    external_call_count := 0
    gas_used := 0
    memory_used := 0
    call_stack := []
    access_control_checks := []
    security_violations := [] }

/-- From `types.rs`: `struct ExecutionResult`. -/
structure ExecutionResult where
  execution_id : String
  success : Bool
  return_value : Option Json
  error : Option String
  metrics : List (String × Json)
  state_changes : List StateChange
  events : List RuntimeEvent
  execution_time_ms : Nat
  security_context : SecureExecutionContext
  security_violations : List SecurityViolation

namespace ExecutionResult

/-- From `types.rs`: `ExecutionResult::new`. -/
def new (execution_id : String) (success : Bool) : ExecutionResult :=
  { execution_id := execution_id
    success := success
    return_value := none
    error := none
    metrics := []
    state_changes := []
    events := []
    execution_time_ms := 0
    security_context := SecureExecutionContext.default
    security_violations := [] }

/-- From `types.rs`: `ExecutionResult::add_security_violation`. -/
def add_security_violation (r : ExecutionResult)
    (violation : SecurityViolation) : ExecutionResult :=
  { r with security_violations := r.security_violations ++ [violation] }

/-- From `types.rs`: `ExecutionResult::has_security_violations`. -/
def has_security_violations (r : ExecutionResult) : Bool :=
  !r.security_violations.isEmpty

/-- The index of a severity in the `severity_order` array
`[Low, Medium, High, Critical]` used by `get_highest_severity`.  Every
severity occurs in that array, so the source's `unwrap_or(0)` fallback
is unreachable. -/
def severity_position : SecuritySeverity → Nat
  | .Low => 0
  | .Medium => 1
  | .High => 2
  | .Critical => 3

/-- From `types.rs`: `ExecutionResult::get_highest_severity` — `max_by` over
the severities, comparing by position in `severity_order`.  Rust's
`max_by` returns `None` on an empty iterator and otherwise the last
maximal element, i.e. a left fold that keeps the accumulator only when
it is strictly greater. -/
def get_highest_severity (r : ExecutionResult) : Option SecuritySeverity :=
  match r.security_violations.map (fun v => v.severity) with
  | [] => none
  | s :: rest =>
    some (rest.foldl
      (fun acc x =>
        if severity_position acc > severity_position x then acc else x) s)

end ExecutionResult

/-! ## `config.rs`: runtime configuration and builder -/

/-- From `config.rs`: `struct RuntimeConfig` (the security-aware variant). -/
structure RuntimeConfig where
  timeout_seconds : Nat
  memory_limit_mb : Nat
  network_mode : NetworkMode
  enable_monitoring : Bool
  blockchain_config : List (String × Json)
  security_config : SecurityConfig

namespace RuntimeConfig

/-- From `config.rs`: `impl Default for RuntimeConfig`. -/
def default : RuntimeConfig :=
  { timeout_seconds := DEFAULT_TIMEOUT_SECONDS
    memory_limit_mb := DEFAULT_MEMORY_LIMIT_MB
    network_mode := .Local
    enable_monitoring := true
    blockchain_config := []
    security_config := SecurityConfig.default }

/-- From `config.rs`: `RuntimeConfig::validate` — the chain of zero checks,
in source order, each returning its error string. -/
def validate (c : RuntimeConfig) : Except String Unit :=
  if c.timeout_seconds = 0 then
    .error ("Timeout cannot be zero")
  else if c.memory_limit_mb = 0 then
    .error ("Memory limit cannot be zero")
  else if c.security_config.max_call_depth = 0 then
    .error ("Maximum call depth cannot be zero")
  else if c.security_config.max_external_calls = 0 then
    .error ("Maximum external calls cannot be zero")
  else if c.security_config.max_gas_limit = 0 then
    .error ("Maximum gas limit cannot be zero")
  else if c.security_config.max_memory_bytes = 0 then
    .error ("Maximum memory bytes cannot be zero")
  else
    .ok ()

end RuntimeConfig

/-- From `config.rs`: `struct RuntimeConfigBuilder`. -/
structure RuntimeConfigBuilder where
  config : RuntimeConfig

namespace RuntimeConfigBuilder

/-- From `config.rs`: `RuntimeConfigBuilder::new`. -/
def new : RuntimeConfigBuilder :=
  { config := RuntimeConfig.default }

/-- From `config.rs`: `RuntimeConfigBuilder::timeout_seconds`. -/
def timeout_seconds (b : RuntimeConfigBuilder) (seconds : Nat) :
    RuntimeConfigBuilder :=
  { b with config := { b.config with timeout_seconds := seconds } }

/-- From `config.rs`: `RuntimeConfigBuilder::memory_limit_mb`. -/
def memory_limit_mb (b : RuntimeConfigBuilder) (mb : Nat) :
    RuntimeConfigBuilder :=
  { b with config := { b.config with memory_limit_mb := mb } }

/-- From `config.rs`: `RuntimeConfigBuilder::security_config`. -/
def security_config (b : RuntimeConfigBuilder) (config : SecurityConfig) :
    RuntimeConfigBuilder :=
  { b with config := { b.config with security_config := config } }

/-- From `config.rs`: `RuntimeConfigBuilder::build` — `self.config.validate()?;
Ok(self.config)`. -/
def build (b : RuntimeConfigBuilder) : Except String RuntimeConfig :=
  match b.config.validate with
  | .error e => .error e
  | .ok () => .ok b.config

end RuntimeConfigBuilder

/-! ## `runtime.rs`: the default runtime implementation -/

/-- From `runtime.rs`: `struct DefaultBlockchainRuntime`. -/
structure DefaultBlockchainRuntime where
  blockchain_id : String
  capabilities : RuntimeCapabilities

/-- From `runtime.rs`: `DefaultBlockchainRuntime::new`. -/
def DefaultBlockchainRuntime.new (blockchain_id : String) :
    DefaultBlockchainRuntime :=
  { blockchain_id := blockchain_id
    capabilities := RuntimeCapabilities.default }

/-- From `runtime.rs`: `DefaultBlockchainRuntime::enforce_resource_limits`
(the `BlockchainRuntime` trait impl).  The body ignores every argument
and returns `Ok(vec![])` — a placeholder, per its own comment
"In a real implementation, this would enforce resource limits". -/
def DefaultBlockchainRuntime.enforce_resource_limits
    (_rt : DefaultBlockchainRuntime) (_env : RuntimeEnvironment)
    (_gas_used : Nat) (_memory_used : Nat) (_call_depth : Nat)
    (_external_calls : Nat) (_security_config : SecurityConfig) :
    Except String (List SecurityViolation) :=
  .ok []

/-! ## Serde serialization model

`SecurityConfig` and `SecureExecutionContext` derive
`serde::{Serialize, Deserialize}`; the generated impls are not part of
the repository's sources, so the JSON mapping is modelled from serde's
documented conventions. -/

/-- Modelled from the spec: the serde `Serialize` impls are
derive-generated (absent from `src/`); a `u32`/`u64` field serializes as
a JSON number. -/
def encNat (n : Nat) : Json := .num (n : Int)

/-- Modelled from the spec: inverse of the serde number mapping —
accepts exactly the non-negative JSON numbers. -/
def decNat : Json → Option Nat
  | .num i => if 0 ≤ i then some i.toNat else none
  | _ => none

/-- Modelled from the spec: `Option<String>` serializes as `null` or the
string itself. -/
def encOptStr : Option String → Json
  | none => .null
  | some s => .str s

/-- Modelled from the spec: inverse of the serde `Option<String>`
mapping. -/
def decOptStr : Json → Option (Option String)
  | .null => some none
  | .str s => some (some s)
  | _ => none

/-- Modelled from the spec: a unit enum variant serializes as its name
(serde's externally tagged representation) — `SecuritySeverity`. -/
def encSeverity : SecuritySeverity → Json
  | .Low => .str ("Low")
  | .Medium => .str ("Medium")
  | .High => .str ("High")
  | .Critical => .str ("Critical")

/-- Modelled from the spec: inverse of the `SecuritySeverity` variant
mapping. -/
def decSeverity : Json → Option SecuritySeverity
  | .str ("Low") => some .Low
  | .str ("Medium") => some .Medium
  | .str ("High") => some .High
  | .str ("Critical") => some .Critical
  | _ => none

/-- Modelled from the spec: a unit enum variant serializes as its name —
`SecurityViolationType`. -/
def encViolationType : SecurityViolationType → Json
  | .ReentrancyAttack => .str ("ReentrancyAttack")
  | .IntegerOverflow => .str ("IntegerOverflow")
  | .AccessControlViolation => .str ("AccessControlViolation")
  | .ResourceLimitExceeded => .str ("ResourceLimitExceeded")
  | .SandboxViolation => .str ("SandboxViolation")
  | .CallDepthExceeded => .str ("CallDepthExceeded")
  | .ExternalCallLimitExceeded => .str ("ExternalCallLimitExceeded")
  | .GasLimitExceeded => .str ("GasLimitExceeded")
  | .MemoryLimitExceeded => .str ("MemoryLimitExceeded")

/-- Modelled from the spec: inverse of the `SecurityViolationType`
variant mapping. -/
def decViolationType : Json → Option SecurityViolationType
  | .str ("ReentrancyAttack") => some .ReentrancyAttack
  | .str ("IntegerOverflow") => some .IntegerOverflow
  | .str ("AccessControlViolation") => some .AccessControlViolation
  | .str ("ResourceLimitExceeded") => some .ResourceLimitExceeded
  | .str ("SandboxViolation") => some .SandboxViolation
  | .str ("CallDepthExceeded") => some .CallDepthExceeded
  | .str ("ExternalCallLimitExceeded") => some .ExternalCallLimitExceeded
  | .str ("GasLimitExceeded") => some .GasLimitExceeded
  | .str ("MemoryLimitExceeded") => some .MemoryLimitExceeded
  | _ => none

/-- Modelled from the spec: element-wise decoding of a serialized `Vec`,
failing if any element fails. -/
def decList {α : Type} (dec : Json → Option α) : List Json → Option (List α)
  | [] => some []
  | j :: js => do
    let x ← dec j
    let xs ← decList dec js
    pure (x :: xs)

/-- Modelled from the spec: serde JSON encoding of `SecurityConfig` —
an object with one entry per field, in declaration order. -/
def encodeSecurityConfig (c : SecurityConfig) : Json :=
  .obj
    [("sandbox_enabled", .bool c.sandbox_enabled),
     ("reentrancy_protection", .bool c.reentrancy_protection),
     ("overflow_detection", .bool c.overflow_detection),
     ("access_control_verification", .bool c.access_control_verification),
     ("max_call_depth", encNat c.max_call_depth),
     ("max_external_calls", encNat c.max_external_calls),
     ("gas_limit_enforcement", .bool c.gas_limit_enforcement),
     ("max_gas_limit", encNat c.max_gas_limit),
     ("memory_limit_enforcement", .bool c.memory_limit_enforcement),
     ("max_memory_bytes", encNat c.max_memory_bytes)]

/-- Modelled from the spec: serde JSON decoding of `SecurityConfig`. -/
def decodeSecurityConfig : Json → Option SecurityConfig
  | .obj
      [("sandbox_enabled", .bool sb),
       ("reentrancy_protection", .bool rp),
       ("overflow_detection", .bool od),
       ("access_control_verification", .bool acv),
       ("max_call_depth", mcd),
       ("max_external_calls", mec),
       ("gas_limit_enforcement", .bool gle),
       ("max_gas_limit", mgl),
       ("memory_limit_enforcement", .bool mle),
       ("max_memory_bytes", mmb)] => do
    let mcd ← decNat mcd
    let mec ← decNat mec
    let mgl ← decNat mgl
    let mmb ← decNat mmb
    pure
      { sandbox_enabled := sb
        reentrancy_protection := rp
        overflow_detection := od
        access_control_verification := acv
        max_call_depth := mcd
        max_external_calls := mec
        gas_limit_enforcement := gle
        max_gas_limit := mgl
        memory_limit_enforcement := mle
        max_memory_bytes := mmb }
  | _ => none

/-- Modelled from the spec: serde JSON encoding of `AccessControlCheck`. -/
def encodeAccessControlCheck (a : AccessControlCheck) : Json :=
  .obj
    [("function_name", .str a.function_name),
     ("caller", .str a.caller),
     ("required_role", encOptStr a.required_role),
     ("has_permission", .bool a.has_permission),
     ("check_timestamp", encNat a.check_timestamp)]

/-- Modelled from the spec: serde JSON decoding of `AccessControlCheck`. -/
def decodeAccessControlCheck : Json → Option AccessControlCheck
  | .obj
      [("function_name", .str fn),
       ("caller", .str ca),
       ("required_role", rr),
       ("has_permission", .bool hp),
       ("check_timestamp", ts)] => do
    let rr ← decOptStr rr
    let ts ← decNat ts
    pure
      { function_name := fn
        caller := ca
        required_role := rr
        has_permission := hp
        check_timestamp := ts }
  | _ => none

/-- Modelled from the spec: serde JSON encoding of `SecurityViolation`
(the `context` map serializes as a JSON object). -/
def encodeSecurityViolation (v : SecurityViolation) : Json :=
  .obj
    [("violation_type", encViolationType v.violation_type),
     ("description", .str v.description),
     ("severity", encSeverity v.severity),
     ("timestamp", encNat v.timestamp),
     ("context", .obj v.context)]

/-- Modelled from the spec: serde JSON decoding of `SecurityViolation`. -/
def decodeSecurityViolation : Json → Option SecurityViolation
  | .obj
      [("violation_type", vt),
       ("description", .str d),
       ("severity", sv),
       ("timestamp", ts),
       ("context", .obj ctx)] => do
    let vt ← decViolationType vt
    let sv ← decSeverity sv
    let ts ← decNat ts
    pure
      { violation_type := vt
        description := d
        severity := sv
        timestamp := ts
        context := ctx }
  | _ => none

/-- Modelled from the spec: serde JSON encoding of
`SecureExecutionContext`. -/
def encodeSecureExecutionContext (ctx : SecureExecutionContext) : Json :=
  .obj
    [("call_depth", encNat ctx.call_depth),
     ("external_call_count", encNat ctx.external_call_count),
     ("gas_used", encNat ctx.gas_used),
     ("memory_used", encNat ctx.memory_used),
     ("call_stack", .arr (ctx.call_stack.map Json.str)),
     ("access_control_checks",
       .arr (ctx.access_control_checks.map encodeAccessControlCheck)),
     ("security_violations",
       .arr (ctx.security_violations.map encodeSecurityViolation))]

/-- Modelled from the spec: serde JSON decoding of
`SecureExecutionContext`. -/
def decodeSecureExecutionContext : Json → Option SecureExecutionContext
  | .obj
      [("call_depth", cd),
       ("external_call_count", ecc),
       ("gas_used", gu),
       ("memory_used", mu),
       ("call_stack", .arr cs),
       ("access_control_checks", .arr acc),
       ("security_violations", .arr sv)] => do
    let cd ← decNat cd
    let ecc ← decNat ecc
    let gu ← decNat gu
    let mu ← decNat mu
    let cs ← decList (fun j => match j with | .str s => some s | _ => none) cs
    let acc ← decList decodeAccessControlCheck acc
    let sv ← decList decodeSecurityViolation sv
    pure
      { call_depth := cd
        external_call_count := ecc
        gas_used := gu
        memory_used := mu
        call_stack := cs
        access_control_checks := acc
        security_violations := sv }
  | _ => none

/-! ## Auxiliary definitions used in theorem statements -/

/-- Spec-side condition for an overflow report: the operation is one of
the addition or multiplication aliases, at least two operands are given,
and the sum (resp. product) of the first two leaves the signed 64-bit
range. -/
def overflowCond (op : String) (ops : List Int) : Prop :=
  ∃ a b rest, ops = a :: b :: rest ∧
    (((op = "add" ∨ op = "+") ∧ ¬ inI64Range (a + b)) ∨
     ((op = "multiply" ∨ op = "*") ∧ ¬ inI64Range (a * b)))

/-- The spec's call-depth scenario config: `maxCallDepth = 3`. -/
def maxDepth3Config : SecurityConfig :=
  { SecurityConfig.default with max_call_depth := 3 }

/-- The spec's gas scenario config: enforcement on, `maxGasLimit = 100_000`. -/
def gas100kConfig : SecurityConfig :=
  { SecurityConfig.default with max_gas_limit := 100000 }

/-- A concrete environment value (shape of the one
`DefaultBlockchainRuntime::create_environment` returns). -/
def sampleEnv : RuntimeEnvironment :=
  { environment_id := "env_0"
    blockchain_id := "ethereum"
    runtime_type := .LocalProcess
    endpoint_url := "http://localhost:8545"
    state := .Ready
    metadata := [] }

/-- A concrete Low-severity violation. -/
def lowViolation : SecurityViolation :=
  SecurityValidator.create_violation .SandboxViolation ("low finding") .Low 7

/-- A concrete High-severity violation. -/
def highViolation : SecurityViolation :=
  SecurityValidator.create_violation .IntegerOverflow ("high finding") .High 8

/-- A concrete execution result carrying a Low and then a High
violation. -/
def sampleResult : ExecutionResult :=
  ((ExecutionResult.new ("exec_1") true).add_security_violation
      lowViolation).add_security_violation highViolation

/-- The sum of the four components of a
`violation_count_by_severity` result `(critical, high, medium, low)`. -/
def sumCounts (r : Nat × Nat × Nat × Nat) : Nat :=
  r.1 + r.2.1 + r.2.2.1 + r.2.2.2

/-! ## Helper lemmas: serde round trip components -/

theorem decNat_encNat (n : Nat) : decNat (encNat n) = some n := by
  simp [decNat, encNat]

theorem decOptStr_encOptStr (o : Option String) :
    decOptStr (encOptStr o) = some o := by
  cases o <;> rfl

theorem decSeverity_encSeverity (s : SecuritySeverity) :
    decSeverity (encSeverity s) = some s := by
  cases s <;> rfl

theorem decViolationType_encViolationType (t : SecurityViolationType) :
    decViolationType (encViolationType t) = some t := by
  cases t <;> rfl

theorem decList_map {α : Type} (enc : α → Json) (dec : Json → Option α)
    (h : ∀ x, dec (enc x) = some x) :
    ∀ l : List α, decList dec (l.map enc) = some l := by
  intro l
  induction l with
  | nil => rfl
  | cons x xs ih => simp [decList, h, ih]

theorem decodeAccessControlCheck_round (a : AccessControlCheck) :
    decodeAccessControlCheck (encodeAccessControlCheck a) = some a := by
  cases a
  simp [decodeAccessControlCheck, encodeAccessControlCheck,
    decOptStr_encOptStr, decNat_encNat]

theorem decodeSecurityViolation_round (v : SecurityViolation) :
    decodeSecurityViolation (encodeSecurityViolation v) = some v := by
  cases v
  simp [decodeSecurityViolation, encodeSecurityViolation,
    decViolationType_encViolationType, decSeverity_encSeverity,
    decNat_encNat]

set_option maxHeartbeats 2000000 in
/-- C8: for every `SecurityConfig` (the Policy) and every
`SecureExecutionContext`, serializing and deserializing yields the
original value field-for-field. -/
theorem serde_round_trip :
    (∀ c : SecurityConfig,
      decodeSecurityConfig (encodeSecurityConfig c) = some c) ∧
    (∀ ctx : SecureExecutionContext,
      decodeSecureExecutionContext (encodeSecureExecutionContext ctx) =
        some ctx) := by
  constructor
  · intro c
    cases c
    simp [decodeSecurityConfig, encodeSecurityConfig, decNat_encNat]
  · intro ctx
    cases ctx
    simp [decodeSecureExecutionContext, encodeSecureExecutionContext,
      decNat_encNat,
      decList_map Json.str (fun j => match j with | .str s => some s | _ => none)
        (fun _ => rfl),
      decList_map encodeAccessControlCheck decodeAccessControlCheck
        decodeAccessControlCheck_round,
      decList_map encodeSecurityViolation decodeSecurityViolation
        decodeSecurityViolation_round]

/-! ## Validator check theorems -/

/-- C4: `validate_call_depth(d)` accepts every `d ≤ max_call_depth` and
reports a `CallDepthExceeded`/`High` violation for every
`d > max_call_depth`, for every config (the check is not gated by any
policy flag — the config is universally quantified over all flag
settings). -/
theorem validate_call_depth_spec :
    ∀ (config : SecurityConfig) (now d : Nat),
      (d ≤ config.max_call_depth →
        SecurityValidator.validate_call_depth config now d = .ok ()) ∧
      (config.max_call_depth < d →
        ∃ v, SecurityValidator.validate_call_depth config now d = .error v ∧
          v.violation_type = .CallDepthExceeded ∧ v.severity = .High) := by
  intro config now d
  constructor
  · intro h
    simp [SecurityValidator.validate_call_depth, Nat.not_lt.mpr h]
  · intro h
    have hres : SecurityValidator.validate_call_depth config now d =
        .error (SecurityValidator.create_violation .CallDepthExceeded
          ("Call depth " ++ toString d ++ " exceeds maximum " ++
            toString config.max_call_depth) .High now) := by
      simp [SecurityValidator.validate_call_depth, h]
    exact ⟨_, hres, rfl, rfl⟩

/-- Witness for C4: the spec scenario `maxCallDepth = 3` — depth 3
passes, depth 4 yields `CallDepthExceeded`/`High`. -/
theorem validate_call_depth_spec_witness :
    SecurityValidator.validate_call_depth maxDepth3Config 0 3 = .ok () ∧
    ∃ v, SecurityValidator.validate_call_depth maxDepth3Config 0 4 = .error v ∧
      v.violation_type = .CallDepthExceeded ∧ v.severity = .High :=
  ⟨(validate_call_depth_spec maxDepth3Config 0 3).1 (by decide),
   (validate_call_depth_spec maxDepth3Config 0 4).2 (by decide)⟩

/-- C5: `validate_gas_usage(used)` violates `GasLimitExceeded`/`High`
exactly when gas-limit enforcement is on and `used > max_gas_limit`;
in particular 500_000 gas passes under both the strict and the
permissive preset, and violates under a policy with limit 100_000. -/
theorem validate_gas_usage_spec :
    ∀ (config : SecurityConfig) (now used : Nat),
      ((config.gas_limit_enforcement = true ∧ config.max_gas_limit < used) →
        ∃ v, SecurityValidator.validate_gas_usage config now used = .error v ∧
          v.violation_type = .GasLimitExceeded ∧ v.severity = .High) ∧
      (¬ (config.gas_limit_enforcement = true ∧
            config.max_gas_limit < used) →
        SecurityValidator.validate_gas_usage config now used = .ok ()) ∧
      SecurityValidator.validate_gas_usage SecurityConfig.strict now 500000 =
        .ok () ∧
      SecurityValidator.validate_gas_usage SecurityConfig.permissive now
        500000 = .ok () ∧
      ∃ v, SecurityValidator.validate_gas_usage gas100kConfig now 500000 =
        .error v ∧ v.violation_type = .GasLimitExceeded ∧
        v.severity = .High := by
  intro config now used
  refine ⟨?_, ?_, ?_, ?_, ?_⟩
  · intro h
    have hres : SecurityValidator.validate_gas_usage config now used =
        .error (SecurityValidator.create_violation .GasLimitExceeded
          ("Gas usage " ++ toString used ++ " exceeds maximum " ++
            toString config.max_gas_limit) .High now) := by
      simp [SecurityValidator.validate_gas_usage, h.1, h.2]
    exact ⟨_, hres, rfl, rfl⟩
  · intro h
    simp only [SecurityValidator.validate_gas_usage, if_neg h]
  · simp [SecurityValidator.validate_gas_usage, SecurityConfig.strict]
  · simp [SecurityValidator.validate_gas_usage, SecurityConfig.permissive]
  · have hres : SecurityValidator.validate_gas_usage gas100kConfig now
        500000 = .error (SecurityValidator.create_violation .GasLimitExceeded
          ("Gas usage " ++ toString 500000 ++ " exceeds maximum " ++
            toString 100000) .High now) := by
      simp [SecurityValidator.validate_gas_usage, gas100kConfig,
        SecurityConfig.default]
    exact ⟨_, hres, rfl, rfl⟩

/-- Witness for C5: the default policy (enforcement on, limit
10_000_000) rejects 20_000_000 gas. -/
theorem validate_gas_usage_spec_witness :
    SecurityConfig.default.gas_limit_enforcement = true ∧
    SecurityConfig.default.max_gas_limit < 20000000 ∧
    ∃ v, SecurityValidator.validate_gas_usage SecurityConfig.default 0
      20000000 = .error v ∧ v.violation_type = .GasLimitExceeded ∧
      v.severity = .High :=
  ⟨rfl, by decide,
   (validate_gas_usage_spec SecurityConfig.default 0 20000000).1
     ⟨rfl, by decide⟩⟩

/-- C2: `check_reentrancy(f, caller, stack)` reports a
`ReentrancyAttack`/`Critical` violation exactly when reentrancy
protection is enabled and `f` occurs more than once in `stack` — i.e.
the stack, which includes the current call's entry, already held `f`
before this entry was pushed; otherwise it returns `Ok(false)`, and
with protection disabled it never violates. -/
theorem check_reentrancy_spec :
    ∀ (config : SecurityConfig) (now : Nat) (f caller : String)
      (stack : List String),
      ((config.reentrancy_protection = true ∧
          1 < (stack.filter (fun g => g = f)).length) →
        ∃ v, SecurityValidator.check_reentrancy config now f caller stack =
          .error v ∧ v.violation_type = .ReentrancyAttack ∧
          v.severity = .Critical) ∧
      (¬ (config.reentrancy_protection = true ∧
            1 < (stack.filter (fun g => g = f)).length) →
        SecurityValidator.check_reentrancy config now f caller stack =
          .ok false) := by
  intro config now f caller stack
  constructor
  · rintro ⟨hp, hcnt⟩
    have hres : SecurityValidator.check_reentrancy config now f caller stack =
        .error (SecurityValidator.create_violation .ReentrancyAttack
          ("Potential reentrancy attack in function " ++ f ++
            " called by " ++ caller) .Critical now) := by
      simp [SecurityValidator.check_reentrancy, hp, hcnt]
    exact ⟨_, hres, rfl, rfl⟩
  · intro h
    by_cases hp : config.reentrancy_protection = true
    · have hcnt : ¬ 1 < (stack.filter (fun g => g = f)).length := by
        intro hc
        exact h ⟨hp, hc⟩
      simp [SecurityValidator.check_reentrancy, hp, hcnt]
    · have hp' : config.reentrancy_protection = false := by
        cases hval : config.reentrancy_protection
        · rfl
        · exact absurd hval hp
      simp [SecurityValidator.check_reentrancy, hp']

/-- Witness for C2: the spec scenario — stack `["a","b","a"]`, checking
`"a"`: `ReentrancyAttack`/`Critical` with protection on (default
config), no violation with protection off (permissive config). -/
theorem check_reentrancy_spec_witness :
    (∃ v, SecurityValidator.check_reentrancy SecurityConfig.default 0 "a"
      "caller" ["a", "b", "a"] = .error v ∧
      v.violation_type = .ReentrancyAttack ∧ v.severity = .Critical) ∧
    SecurityValidator.check_reentrancy SecurityConfig.permissive 0 "a"
      "caller" ["a", "b", "a"] = .ok false :=
  ⟨(check_reentrancy_spec SecurityConfig.default 0 "a" "caller"
      ["a", "b", "a"]).1 ⟨rfl, by decide⟩,
   (check_reentrancy_spec SecurityConfig.permissive 0 "a" "caller"
      ["a", "b", "a"]).2 (by decide)⟩

/-- C6: `RuntimeConfigBuilder::build` (which runs `validate`) rejects a
configuration exactly when one of `timeout_seconds`, `memory_limit_mb`,
`max_call_depth`, `max_external_calls`, `max_gas_limit` or
`max_memory_bytes` is zero, and otherwise returns the configuration
unchanged. -/
theorem builder_build_spec :
    ∀ c : RuntimeConfig,
      (RuntimeConfigBuilder.build ⟨c⟩ = .ok c ↔
        (c.timeout_seconds ≠ 0 ∧ c.memory_limit_mb ≠ 0 ∧
         c.security_config.max_call_depth ≠ 0 ∧
         c.security_config.max_external_calls ≠ 0 ∧
         c.security_config.max_gas_limit ≠ 0 ∧
         c.security_config.max_memory_bytes ≠ 0)) ∧
      ((∃ e, RuntimeConfigBuilder.build ⟨c⟩ = .error e) ↔
        (c.timeout_seconds = 0 ∨ c.memory_limit_mb = 0 ∨
         c.security_config.max_call_depth = 0 ∨
         c.security_config.max_external_calls = 0 ∨
         c.security_config.max_gas_limit = 0 ∨
         c.security_config.max_memory_bytes = 0)) := by
  intro c
  unfold RuntimeConfigBuilder.build RuntimeConfig.validate
  split_ifs with h1 h2 h3 h4 h5 h6 <;> simp_all

/-- Witness for C6: the default builder configuration (all limits
positive) builds successfully and unchanged. -/
theorem builder_build_spec_witness :
    RuntimeConfigBuilder.build RuntimeConfigBuilder.new =
      .ok RuntimeConfig.default :=
  (builder_build_spec RuntimeConfig.default).1.mpr
    ⟨by decide, by decide, by decide, by decide, by decide, by decide⟩

/-! ## Security context accounting -/

theorem foldl_add_violation (vs : List SecurityViolation) :
    ∀ ctx : SecurityContext,
      vs.foldl SecurityContext.add_violation ctx =
        ⟨ctx.validator, ctx.violations ++ vs⟩ := by
  induction vs with
  | nil => intro ctx; simp
  | cons v rest ih =>
    intro ctx
    simp only [List.foldl_cons, ih]
    simp [SecurityContext.add_violation]

theorem counts_fold_general (l : List SecurityViolation) :
    ∀ init : Nat × Nat × Nat × Nat,
      sumCounts (l.foldl SecurityContext.countStep init) =
        sumCounts init + l.length := by
  induction l with
  | nil => intro init; simp
  | cons v rest ih =>
    intro init
    simp only [List.foldl_cons]
    rw [ih]
    obtain ⟨c, h, m, lo⟩ := init
    cases hv : v.severity <;>
      simp [SecurityContext.countStep, sumCounts, hv] <;> omega

theorem counts_sum_aux (cfg : SecurityConfig) (l : List SecurityViolation) :
    sumCounts (SecurityContext.violation_count_by_severity
      ⟨SecurityValidatorS.new cfg, l⟩) = l.length := by
  simpa [SecurityContext.violation_count_by_severity, sumCounts] using
    counts_fold_general l (0, 0, 0, 0)

/-- C7: for every sequence of violations appended to a fresh
`SecurityContext`, the four counts of `violation_count_by_severity`
(critical, high, medium, low) sum to the number of recorded
violations. -/
theorem violation_count_by_severity_sum :
    ∀ (config : SecurityConfig) (vs : List SecurityViolation),
      (vs.foldl SecurityContext.add_violation
          (SecurityContext.new config)).violations = vs ∧
      sumCounts ((vs.foldl SecurityContext.add_violation
          (SecurityContext.new config)).violation_count_by_severity) =
        ((vs.foldl SecurityContext.add_violation
            (SecurityContext.new config)).violations).length := by
  intro config vs
  have hfold : vs.foldl SecurityContext.add_violation
      (SecurityContext.new config) = ⟨SecurityValidatorS.new config, vs⟩ := by
    simpa [SecurityContext.new] using
      foldl_add_violation vs (SecurityContext.new config)
  rw [hfold]
  exact ⟨rfl, counts_sum_aux config vs⟩

/-! ## Highest severity of an execution result -/

theorem severity_maxfold_mem (rest : List SecuritySeverity) :
    ∀ s : SecuritySeverity,
      rest.foldl
        (fun acc x =>
          if ExecutionResult.severity_position acc >
              ExecutionResult.severity_position x then acc else x) s ∈
        s :: rest := by
  induction rest with
  | nil => intro s; simp
  | cons x xs ih =>
    intro s
    simp only [List.foldl_cons]
    have h := ih (if ExecutionResult.severity_position s >
        ExecutionResult.severity_position x then s else x)
    rcases List.mem_cons.mp h with h1 | h1
    · rw [h1]
      split_ifs <;> simp
    · simp [List.mem_cons, Or.inr (Or.inr h1)]

theorem severity_maxfold_ub (rest : List SecuritySeverity) :
    ∀ s : SecuritySeverity, ∀ t ∈ s :: rest,
      ExecutionResult.severity_position t ≤
        ExecutionResult.severity_position
          (rest.foldl
            (fun acc x =>
              if ExecutionResult.severity_position acc >
                  ExecutionResult.severity_position x then acc else x) s) := by
  induction rest with
  | nil =>
    intro s t ht
    simp at ht
    simp [ht]
  | cons x xs ih =>
    intro s t ht
    simp only [List.foldl_cons]
    have hstep : ExecutionResult.severity_position s ≤
        ExecutionResult.severity_position
          (if ExecutionResult.severity_position s >
              ExecutionResult.severity_position x then s else x) ∧
        ExecutionResult.severity_position x ≤
          ExecutionResult.severity_position
            (if ExecutionResult.severity_position s >
                ExecutionResult.severity_position x then s else x) := by
      split_ifs with h <;> constructor <;> omega
    have hmem : (if ExecutionResult.severity_position s >
        ExecutionResult.severity_position x then s else x) ∈
        (if ExecutionResult.severity_position s >
            ExecutionResult.severity_position x then s else x) :: xs :=
      List.mem_cons_self _ _
    rcases List.mem_cons.mp ht with h1 | h1
    · subst h1
      exact le_trans hstep.1 (ih _ _ hmem)
    · rcases List.mem_cons.mp h1 with h2 | h2
      · subst h2
        exact le_trans hstep.2 (ih _ _ hmem)
      · exact ih _ t (List.mem_cons_of_mem _ h2)

/-- C9: `get_highest_severity` returns `none` exactly when no violation
was recorded, and otherwise some severity that is attained by a recorded
violation and bounds every recorded violation's severity from above in
the order `Low < Medium < High < Critical` (realized by
`severity_position`). -/
theorem get_highest_severity_spec :
    ∀ r : ExecutionResult,
      (r.get_highest_severity = none ↔ r.security_violations = []) ∧
      (∀ s, r.get_highest_severity = some s →
        (∃ v, v ∈ r.security_violations ∧ v.severity = s) ∧
        ∀ v, v ∈ r.security_violations →
          ExecutionResult.severity_position v.severity ≤
            ExecutionResult.severity_position s) := by
  intro r
  unfold ExecutionResult.get_highest_severity
  cases hl : r.security_violations with
  | nil => simp
  | cons v0 vrest =>
    simp only [List.map_cons]
    constructor
    · simp [hl]
    · intro s hs
      have hs' : (vrest.map (fun v => v.severity)).foldl
          (fun acc x =>
            if ExecutionResult.severity_position acc >
                ExecutionResult.severity_position x then acc else x)
          v0.severity = s := by
        exact Option.some_injective _ hs
      constructor
      · have hmem := severity_maxfold_mem
          (vrest.map (fun v => v.severity)) v0.severity
        rw [hs'] at hmem
        rcases List.mem_cons.mp hmem with h1 | h1
        · exact ⟨v0, List.mem_cons_self _ _, h1.symm⟩
        · rcases List.mem_map.mp h1 with ⟨v, hv, hveq⟩
          exact ⟨v, List.mem_cons_of_mem _ hv, hveq⟩
      · intro v hv
        have hub := severity_maxfold_ub
          (vrest.map (fun w => w.severity)) v0.severity v.severity
        rw [hs'] at hub
        apply hub
        rcases List.mem_cons.mp hv with h1 | h1
        · subst h1; exact List.mem_cons_self _ _
        · exact List.mem_cons_of_mem _ (List.mem_map.mpr ⟨v, h1, rfl⟩)

/-- Witness for C9: the sample result (a Low then a High violation) has
highest severity `High`, attained and bounding. -/
theorem get_highest_severity_spec_witness :
    sampleResult.get_highest_severity = some .High ∧
    ∃ v, v ∈ sampleResult.security_violations ∧ v.severity = .High :=
  ⟨rfl, ((get_highest_severity_spec sampleResult).2 .High rfl).1⟩

/-! ## Operand-count guard of overflow detection -/

/-- C10: for each of the four checked operation aliases, calling
`detect_overflow` with fewer than two operands returns `Ok(false)`: the
length guard makes the accesses to `operands[0]`/`operands[1]`
unreachable (in the embedding, the pattern match is total by
construction). -/
theorem detect_overflow_short_operands :
    ∀ (config : SecurityConfig) (now : Nat) (op : String)
      (ops : List Int),
      (op = "add" ∨ op = "+" ∨ op = "multiply" ∨ op = "*") →
      ops.length < 2 →
      SecurityValidator.detect_overflow config now op ops = .ok false := by
  intro config now op ops _hop hlen
  cases ops with
  | nil =>
    unfold SecurityValidator.detect_overflow
    split_ifs <;> rfl
  | cons a tail =>
    cases tail with
    | nil =>
      unfold SecurityValidator.detect_overflow
      split_ifs <;> rfl
    | cons b r => simp at hlen; omega

/-- Witness for C10: `detect_overflow("add", [1])` under the default
policy (overflow detection on) returns `Ok(false)`. -/
theorem detect_overflow_short_operands_witness :
    ("add" = "add" ∨ "add" = "+" ∨ "add" = "multiply" ∨ "add" = "*") ∧
    ([(1 : Int)].length < 2) ∧
    SecurityValidator.detect_overflow SecurityConfig.default 0 "add"
      [(1 : Int)] = .ok false :=
  ⟨Or.inl rfl, by decide,
   detect_overflow_short_operands SecurityConfig.default 0 "add"
     [(1 : Int)] (Or.inl rfl) (by decide)⟩

/-! ## Overflow detection -/

/-- Counterexample to C3 as stated: `"+"` is neither `"add"` nor
`"multiply"`, so under the claim `detect_overflow("+", [i64::MAX, 1])`
would report no violation — but the code treats `"+"` as an alias of
`"add"` and reports `IntegerOverflow`/`High`. -/
theorem detect_overflow_claim_counterexample :
    ("+" ≠ "add" ∧ "+" ≠ "multiply") ∧
    ∃ v, SecurityValidator.detect_overflow SecurityConfig.default 0 "+"
      [I64_MAX, 1] = .error v ∧ v.violation_type = .IntegerOverflow ∧
      v.severity = .High := by
  refine ⟨⟨by decide, by decide⟩, ?_⟩
  have hover : ¬ inI64Range (I64_MAX + 1) := by
    simp [inI64Range, I64_MAX, I64_MIN]
  have hres : SecurityValidator.detect_overflow SecurityConfig.default 0 "+"
      [I64_MAX, 1] = .error (SecurityValidator.create_violation
        .IntegerOverflow
        ("Integer overflow detected in addition: " ++ toString I64_MAX ++
          " + " ++ toString (1 : Int)) .High 0) := by
    simp [SecurityValidator.detect_overflow, SecurityConfig.default,
      checked_add, hover]
  exact ⟨_, hres, rfl, rfl⟩

/-- C3 (amended): with overflow detection enabled, `detect_overflow`
reports an `IntegerOverflow`/`High` violation exactly when the operation
is one of the aliases `"add"`/`"+"` (resp. `"multiply"`/`"*"`), at least
two operands are given, and the sum (resp. product) of the first two
operands leaves the signed 64-bit range; every other call returns
`Ok(false)`, and with detection disabled no call ever violates. -/
theorem detect_overflow_spec :
    ∀ (config : SecurityConfig) (now : Nat) (op : String)
      (ops : List Int),
      ((config.overflow_detection = true ∧ overflowCond op ops) →
        ∃ v, SecurityValidator.detect_overflow config now op ops =
          .error v ∧ v.violation_type = .IntegerOverflow ∧
          v.severity = .High) ∧
      (¬ (config.overflow_detection = true ∧ overflowCond op ops) →
        SecurityValidator.detect_overflow config now op ops =
          .ok false) := by
  intro config now op ops
  constructor
  · rintro ⟨hdet, a, b, rest, rfl, hcase⟩
    rcases hcase with ⟨hop, hover⟩ | ⟨hop, hover⟩
    · have hres : SecurityValidator.detect_overflow config now op
          (a :: b :: rest) = .error (SecurityValidator.create_violation
            .IntegerOverflow
            ("Integer overflow detected in addition: " ++ toString a ++
              " + " ++ toString b) .High now) := by
        rcases hop with rfl | rfl <;>
          simp [SecurityValidator.detect_overflow, hdet, checked_add, hover]
      exact ⟨_, hres, rfl, rfl⟩
    · have hres : SecurityValidator.detect_overflow config now op
          (a :: b :: rest) = .error (SecurityValidator.create_violation
            .IntegerOverflow
            ("Integer overflow detected in multiplication: " ++
              toString a ++ " * " ++ toString b) .High now) := by
        rcases hop with rfl | rfl <;>
          simp [SecurityValidator.detect_overflow, hdet, checked_mul, hover]
      exact ⟨_, hres, rfl, rfl⟩
  · intro h
    cases hdet : config.overflow_detection with
    | false => simp [SecurityValidator.detect_overflow, hdet]
    | true =>
      have hnc : ¬ overflowCond op ops := fun hc => h ⟨hdet, hc⟩
      by_cases hadd : op = "add" ∨ op = "+"
      · cases ops with
        | nil =>
          rcases hadd with rfl | rfl <;>
            simp [SecurityValidator.detect_overflow, hdet]
        | cons a tail =>
          cases tail with
          | nil =>
            rcases hadd with rfl | rfl <;>
              simp [SecurityValidator.detect_overflow, hdet]
          | cons b rest =>
            have hrange : inI64Range (a + b) := by
              by_contra hno
              exact hnc ⟨a, b, rest, rfl, Or.inl ⟨hadd, hno⟩⟩
            rcases hadd with rfl | rfl <;>
              simp [SecurityValidator.detect_overflow, hdet, checked_add,
                hrange]
      · by_cases hmul : op = "multiply" ∨ op = "*"
        · cases ops with
          | nil =>
            rcases hmul with rfl | rfl <;>
              simp [SecurityValidator.detect_overflow, hdet]
          | cons a tail =>
            cases tail with
            | nil =>
              rcases hmul with rfl | rfl <;>
                simp [SecurityValidator.detect_overflow, hdet]
            | cons b rest =>
              have hrange : inI64Range (a * b) := by
                by_contra hno
                exact hnc ⟨a, b, rest, rfl, Or.inr ⟨hmul, hno⟩⟩
              rcases hmul with rfl | rfl <;>
                simp [SecurityValidator.detect_overflow, hdet, checked_mul,
                  hrange]
        · simp [SecurityValidator.detect_overflow, hdet, hadd, hmul]

/-- Witness for C3 (amended): the spec scenarios — `"add"` on
`[i64::MAX, 1]` violates, `"subtract"` (an unchecked operation) and
`"add"` on `[10, 20]` do not. -/
theorem detect_overflow_spec_witness :
    (∃ v, SecurityValidator.detect_overflow SecurityConfig.default 0 "add"
      [I64_MAX, 1] = .error v ∧ v.violation_type = .IntegerOverflow ∧
      v.severity = .High) ∧
    SecurityValidator.detect_overflow SecurityConfig.default 0 "add"
      [10, 20] = .ok false ∧
    SecurityValidator.detect_overflow SecurityConfig.default 0 "subtract"
      [10, 20] = .ok false := by
  refine ⟨(detect_overflow_spec SecurityConfig.default 0 "add"
      [I64_MAX, 1]).1 ⟨rfl, I64_MAX, 1, [], rfl, Or.inl ⟨Or.inl rfl, ?_⟩⟩,
    (detect_overflow_spec SecurityConfig.default 0 "add" [10, 20]).2 ?_,
    (detect_overflow_spec SecurityConfig.default 0 "subtract" [10, 20]).2
      ?_⟩
  · simp [inI64Range, I64_MAX, I64_MIN]
  · rintro ⟨-, a, b, rest, heq, hcase⟩
    simp only [List.cons.injEq] at heq
    obtain ⟨rfl, rfl, rfl⟩ := heq
    rcases hcase with ⟨-, hover⟩ | ⟨hop, -⟩
    · exact hover (by simp [inI64Range, I64_MAX, I64_MIN])
    · rcases hop with hop | hop <;> exact absurd hop (by decide)
  · rintro ⟨-, a, b, rest, heq, hcase⟩
    rcases hcase with ⟨hop, -⟩ | ⟨hop, -⟩ <;>
      rcases hop with hop | hop <;> exact absurd hop (by decide)

/-! ## The resource-limit batch entry point -/

/-- C1 evidence: `DefaultBlockchainRuntime::enforce_resource_limits` is
a stub returning the empty list even when a resource check fails — for
the strict policy and 2_000_000 gas the gas check alone yields a
`GasLimitExceeded`/`High` violation, yet the batch entry point reports
nothing. -/
theorem enforce_resource_limits_stub_empty :
    DefaultBlockchainRuntime.enforce_resource_limits
      (DefaultBlockchainRuntime.new ("ethereum")) sampleEnv 2000000 0 0 0
      SecurityConfig.strict = .ok [] ∧
    ∃ v, SecurityValidator.validate_gas_usage SecurityConfig.strict 0
      2000000 = .error v ∧ v.violation_type = .GasLimitExceeded ∧
      v.severity = .High := by
  refine ⟨rfl, ?_⟩
  have hres : SecurityValidator.validate_gas_usage SecurityConfig.strict 0
      2000000 = .error (SecurityValidator.create_violation
        .GasLimitExceeded
        ("Gas usage " ++ toString 2000000 ++ " exceeds maximum " ++
          toString 1000000) .High 0) := by
    simp [SecurityValidator.validate_gas_usage, SecurityConfig.strict]
  exact ⟨_, hres, rfl, rfl⟩

end BlockchainRuntime
